import Mathlib

/-
Verification of the powermarketdata ingestion core against its specification.

The definitions below are shallow embeddings of the Python source:
  - src/db/duckdb_connection.py      (DuckDBConnection.save_dataframe)
  - src/data_sources/tso/downloader.py   (TSODataDownloader.fetch_data, chubu year search)
  - src/data_sources/tso/parser.py       (TSODataParser: encoding detection, demand
                                          normalization, time_to_slot)
  - src/data_sources/tso/unified_downloader.py (UnifiedTSODownloader._process_zip_file)

Machine strings are Lean String, pandas NaN cells are Option.none, numeric cell
values are rationals, byte buffers are lists of Nat. External library calls
(Python codecs decode, chardet) are abstracted as an explicit environment record.
-/

namespace PowerMarketData

/-! ## IngestionWriter: DuckDBConnection.save_dataframe (src/db/duckdb_connection.py) -/

/-- One row of a DataFrame handed to save_dataframe: the master_key cell
(none models a NULL / NaN key) plus an opaque numeric payload. -/
structure DBRow where
  master_key : Option String
  payload : Int
deriving DecidableEq, Repr

/-- Embedding of DuckDBConnection.save_dataframe, lines 130-292 of
src/db/duckdb_connection.py. The target table is the list of stored rows;
the result is the new table contents together with the reported inserted count.
At lines 159-161 the source reads

    if df.empty:
        print(...)
    return 0

so the final return statement is dedented to the level of the if and executes
unconditionally, for empty and non-empty frames alike; the duplicate check,
temporary view registration and INSERT at lines 163-292 are unreachable. -/
def save_dataframe (table : List DBRow) (df : List DBRow) (tableName : String)
    (ifExists : String) (checkDup : Bool) : Except String (List DBRow × Int) :=
  if ifExists ≠ "append" then
    Except.error "save_dataframe currently only supports if_exists=append"
  else
    Except.ok (table, 0)

/-- Embedding of the unreachable part of save_dataframe (lines 163-292 of
src/db/duckdb_connection.py), as if the dedented return at line 161 were inside
the empty-frame branch: rows with a NULL master_key are excluded, then one
set-based INSERT ... WHERE NOT EXISTS on master_key runs and the
INSERT ... RETURNING row count is reported (the success path of the source). -/
def save_dataframe_unreachable_insert (table : List DBRow) (df : List DBRow)
    (checkDup : Bool) : List DBRow × Int :=
  if checkDup then
    let df2 := df.filter (fun r => r.master_key.isSome)
    if df2.isEmpty then (table, 0)
    else
      let newRows := df2.filter (fun r =>
        ¬ table.any (fun e => e.master_key = r.master_key))
      (table ++ newRows, (newRows.length : Int))
  else
    (table ++ df, (df.length : Int))

/-! ## LocatorResolver: chubu year search (src/data_sources/tso/downloader.py 80-114) -/

/-- Embedding of the candidate year list built by TSODataDownloader.fetch_data
for the chubu zip archive, lines 81-90 of src/data_sources/tso/downloader.py.
The loop over offsets [-1, 1] is unrolled. -/
def chubu_test_years (year currentYear : Int) : List Int :=
  let t0 : List Int := if year > currentYear then [currentYear] else [year]
  let t1 : List Int :=
    if year - 1 ≤ currentYear ∧ year - 1 ∉ t0 then t0 ++ [year - 1] else t0
  let t2 : List Int :=
    if year + 1 ≤ currentYear ∧ year + 1 ∉ t1 then t1 ++ [year + 1] else t1
  if currentYear ∉ t2 then t2 ++ [currentYear] else t2

/-- First-occurrence deduplication, carrying the set of years already kept. -/
def dedupSeen : List Int → List Int → List Int
  | [], _ => []
  | x :: xs, seen =>
    if x ∈ seen then dedupSeen xs seen else x :: dedupSeen xs (x :: seen)

/-- First-occurrence deduplication of a list of years. -/
def dedupKeepFirst (l : List Int) : List Int := dedupSeen l []

/-- Modelled from the words of the claim (spec section 4.1, YearSearch): the
candidates are period.year, period.year-1, period.year+1, current_year, with a
future requested year replaced by the current year, candidates above the
current year removed, and first-occurrence deduplication. -/
def claimed_candidate_years (year currentYear : Int) : List Int :=
  let y0 : Int := if year > currentYear then currentYear else year
  dedupKeepFirst (([y0, year - 1, year + 1, currentYear]).filter
    (fun c => c ≤ currentYear))

/-! ## TimeKeyDeriver: time_to_slot (src/data_sources/tso/parser.py 362-371, 513-525) -/

/-- A pandas cell: none is NaN. -/
abbrev Cell := Option String

/-- Split a character list on a separator character, mirroring str.split of
Python on a one-character separator. -/
def splitOnChar (sep : Char) (s : List Char) : List (List Char) :=
  match s with
  | [] => [[]]
  | c :: rest =>
    let tail := splitOnChar sep rest
    if c = sep then [] :: tail
    else
      match tail with
      | [] => [[c]]
      | t :: ts => (c :: t) :: ts

/-- Python int() on a string: optional surrounding whitespace, optional sign,
then at least one ASCII digit. Returns none where int() raises ValueError. -/
def pyInt (s : List Char) : Option Int :=
  let t := (s.dropWhile Char.isWhitespace).reverse.dropWhile Char.isWhitespace |>.reverse
  let core : List Char × Bool :=
    match t with
    | '-' :: rest => (rest, true)
    | '+' :: rest => (rest, false)
    | _ => (t, false)
  if core.1 ≠ [] ∧ core.1.all Char.isDigit then
    let n : Nat := core.1.foldl (fun acc c => acc * 10 + (c.toNat - 48)) 0
    some (if core.2 then -(n : Int) else (n : Int))
  else
    none

/-- The unpacking hour, minute = map(int, str(t).split(":")) from the source:
succeeds only when the split yields exactly two int-parsable fields. -/
def parseHM (s : String) : Option (Int × Int) :=
  match splitOnChar ':' s.data with
  | [a, b] =>
    match pyInt a, pyInt b with
    | some h, some m => some (h, m)
    | _, _ => none
  | _ => none

/-- Embedding of the nested function time_to_slot in
TSODataParser._process_demand_data (src/data_sources/tso/parser.py 362-371; the
copy at 513-525 is identical): NaN gives 0, a parsable H:M gives
hour*2 + (1 if minute == 0 else 2), guarded by
`return 48 if slot == 0 and hour == 24 else slot`, and any parse failure
gives 0. -/
def time_to_slot (c : Cell) : Int :=
  match c with
  | none => 0
  | some s =>
    match parseHM s with
    | some (h, m) =>
      let slot : Int := h * 2 + (if m = 0 then 1 else 2)
      if slot = 0 ∧ h = 24 then 48 else slot
    | none => 0

/-- Zero-padded two-digit rendering of an hour or minute value. -/
def pad2 (n : Nat) : String :=
  if n < 10 then "0" ++ toString n else toString n

/-- Render an HH:MM time string. -/
def fmtTime (h m : Nat) : String :=
  pad2 h ++ ":" ++ pad2 m

/-! ## SchemaMapper and TimeKeyDeriver: TSODataParser._process_demand_data
(src/data_sources/tso/parser.py 278-419) -/

/-- A DataFrame as produced by pd.read_csv(header=1): the header labels and the
data rows; a missing value (NaN) cell is none. -/
structure PandasDF where
  headers : List String
  rows : List (List Cell)

/-- The fixed canonical column order DEMAND_COLUMNS_ORDER of TSODataParser. -/
def DEMAND_COLUMNS_ORDER : List String :=
  ["master_key", "date", "slot", "area_demand", "nuclear", "LNG", "coal",
   "oil", "other_fire", "hydro", "geothermal", "biomass", "solar_actual",
   "solar_control", "wind_actual", "wind_control", "pumped_storage",
   "battery", "interconnection", "other", "total"]

/-- The canonical numeric metric fields (DEMAND_COLUMNS_ORDER without
master_key, date, slot). -/
def metric_names : List String := DEMAND_COLUMNS_ORDER.drop 3

/-- The alias table column_mapping of _process_demand_data, in source order:
raw label (compared lowercased and stripped) to canonical field name. -/
def column_mapping : List (String × String) :=
  [("date", "date"), ("time", "slot"),
   ("エリア需要", "area_demand"), ("実績(万kw)", "area_demand"),
   ("原子力", "nuclear"),
   ("火力(lng)", "LNG"), ("火力（ｌｎｇ）", "LNG"),
   ("火力(石炭)", "coal"),
   ("火力(石油)", "oil"),
   ("火力(その他)", "other_fire"),
   ("水力", "hydro"),
   ("地熱", "geothermal"),
   ("バイオマス", "biomass"),
   ("太陽光発電実績", "solar_actual"), ("太陽光実績", "solar_actual"),
   ("太陽光出力制御量", "solar_control"), ("太陽光制御量", "solar_control"),
   ("風力発電実績", "wind_actual"), ("風力実績", "wind_actual"),
   ("風力出力制御量", "wind_control"), ("風力制御量", "wind_control"),
   ("揚水", "pumped_storage"),
   ("蓄電池", "battery"),
   ("連系線", "interconnection"),
   ("その他", "other"),
   ("合計", "total")]

/-- Python str(c).lower().strip(): ASCII lowercasing then whitespace strip,
written on the character list so that it evaluates by reduction. -/
def pyLowerStrip (s : String) : String :=
  let t := s.data.map Char.toLower
  String.mk (((t.dropWhile Char.isWhitespace).reverse.dropWhile
    Char.isWhitespace).reverse)

/-- Python list.index as an option: index of the first occurrence of a name. -/
def indexOfName : List String → String → Option Nat
  | [], _ => none
  | h :: t, a => if h = a then some 0 else (indexOfName t a).map (fun i => i + 1)

/-- The inner loop of the rename construction: the first alias mapping to the
canonical name std whose raw label occurs among the lowercased stripped
headers, returning the column index found (lines 321-337 of the source; the
used_standard_cols guard never fires because DEMAND_COLUMNS_ORDER has no
repeated name). -/
def findRenameIdx (headers : List String) (std : String) : Option Nat :=
  (column_mapping.filterMap (fun p =>
    if p.2 = std then indexOfName (headers.map pyLowerStrip) p.1 else none)).head?

/-- The rename_dict of the source: original column name to canonical name,
one entry per canonical field that was located. -/
def rename_dict (headers : List String) : List (String × String) :=
  DEMAND_COLUMNS_ORDER.filterMap (fun std =>
    (findRenameIdx headers std).map (fun i => (headers.getD i "", std)))

/-- df_data.rename(columns=rename_dict): every column name is pushed through
the rename dictionary. -/
def renamed_headers (headers : List String) : List String :=
  headers.map (fun h => ((rename_dict headers).lookup h).getD h)

/-- cols_to_drop of the source (line 404): the original names that were
renamed, plus the temporary date_str and slot_num columns; df_result columns
appearing here are dropped and then recreated as 0 by the reindex. -/
def cols_to_drop (headers : List String) : List String :=
  (rename_dict headers).map Prod.fst ++ ["date_str", "slot_num"]

/-- Digits of an ASCII-digit character list as a number. -/
def digitsToNat (s : List Char) : Nat :=
  s.foldl (fun a c => a * 10 + (c.toNat - 48)) 0

/-- Gregorian leap year. -/
def isLeapYear (y : Nat) : Bool :=
  (y % 4 = 0 ∧ y % 100 ≠ 0) ∨ y % 400 = 0

/-- Days of a month. -/
def daysInMonth (y m : Nat) : Nat :=
  if m = 2 then (if isLeapYear y then 29 else 28)
  else if m = 4 ∨ m = 6 ∨ m = 9 ∨ m = 11 then 30 else 31

/-- Embedding of
pd.to_datetime(cell, format=%Y/%m/%d, errors=coerce).strftime(%Y%m%d):
strict match of the slash format only (a 4-digit year, 1-2 digit month and
day, slash separators), calendar-valid and inside the pandas Timestamp year
range (approximated by whole years 1678-2261); anything else, including the
dash shape YYYY-MM-DD, is coerced to NaT, i.e. none. -/
def parseDateSlash (c : Cell) : Option String :=
  match c with
  | none => none
  | some s =>
    match splitOnChar '/' s.data with
    | [ys, ms, ds] =>
      if ys.length = 4 ∧ ys.all Char.isDigit ∧
         1 ≤ ms.length ∧ ms.length ≤ 2 ∧ ms.all Char.isDigit ∧
         1 ≤ ds.length ∧ ds.length ≤ 2 ∧ ds.all Char.isDigit then
        let y := digitsToNat ys
        let m := digitsToNat ms
        let d := digitsToNat ds
        if 1678 ≤ y ∧ y ≤ 2261 ∧ 1 ≤ m ∧ m ≤ 12 ∧ 1 ≤ d ∧
           d ≤ daysInMonth y m then
          some (toString y ++ pad2 m ++ pad2 d)
        else none
      else none
    | _ => none

/-- The full-width digit normalization of the source:
str.replace([０-９], chr(ord(c) - 0xFEE0)). -/
def normalizeFullwidth (s : List Char) : List Char :=
  s.map (fun ch =>
    if 0xFF10 ≤ ch.toNat ∧ ch.toNat ≤ 0xFF19 then Char.ofNat (ch.toNat - 0xFEE0)
    else ch)

/-- str.replace(",", ""): every comma removed. -/
def stripCommas (s : List Char) : List Char :=
  s.filter (fun c => c ≠ ',')

/-- pd.to_numeric(str, errors=coerce) on the fragment the demand files use:
optional sign, decimal digits with an optional single point (at least one
digit overall). Everything else, including the string nan that astype(str)
makes of a NaN cell, coerces to none. -/
def parseNumber (s : List Char) : Option ℚ :=
  let core : List Char × Bool :=
    match s with
    | '-' :: rest => (rest, true)
    | '+' :: rest => (rest, false)
    | _ => (s, false)
  let signed : Nat → Int := fun n => if core.2 then -(n : Int) else (n : Int)
  match splitOnChar '.' core.1 with
  | [ip] =>
    if ip ≠ [] ∧ ip.all Char.isDigit then
      some (mkRat (signed (digitsToNat ip)) 1)
    else none
  | [ip, fp] =>
    if (ip ≠ [] ∨ fp ≠ []) ∧ ip.all Char.isDigit ∧ fp.all Char.isDigit then
      some (mkRat
        (signed (digitsToNat ip * 10 ^ fp.length + digitsToNat fp))
        (10 ^ fp.length))
    else none
  | _ => none

/-- The numeric cell coercion of lines 397-398:
astype(str) (NaN prints as nan), full-width digit normalization, comma strip,
to_numeric(errors=coerce), fillna(0). Total by construction. -/
def coerceNumeric (c : Cell) : ℚ :=
  let s : List Char :=
    match c with
    | none => String.data "nan"
    | some t => t.data
  (parseNumber (stripCommas (normalizeFullwidth s))).getD 0

/-- The value stored for one canonical metric column (lines 394-401): the cell
of the column renamed to std coerced numerically, or 0 when no column was
renamed to std. -/
def metricValue (renH : List String) (row : List Cell) (std : String) : ℚ :=
  match indexOfName renH std with
  | some i => coerceNumeric (row.getD i none)
  | none => 0

/-- A canonical demand record: master key, YYYYMMDD date string, slot and the
ordered metric fields. -/
structure CanonicalRecord where
  master_key : String
  date : String
  slot : Int
  metrics : List (String × ℚ)
deriving DecidableEq, Repr

/-- Construction of one output row of _process_demand_data: slot via
time_to_slot, master key date_str ++ _ ++ slot_num, metrics coerced or
defaulted to 0, and the final drop of cols_to_drop followed by
reindex(fill_value=0), which zeroes any output field whose name collides with
a dropped original column name (string fields get the 0 fill rendered as 0). -/
def buildRecord (renH drop : List String) (dateStr : String) (slotIdx : Nat)
    (row : List Cell) : CanonicalRecord :=
  let slotNum := time_to_slot (row.getD slotIdx none)
  { master_key :=
      if "master_key" ∈ drop then "0" else dateStr ++ "_" ++ toString slotNum
    date := if "date" ∈ drop then "0" else dateStr
    slot := if "slot" ∈ drop then 0 else slotNum
    metrics := metric_names.map (fun std =>
      (std, if std ∈ drop then 0 else metricValue renH row std)) }

/-- drop_duplicates(subset=[master_key], keep=first), carrying the keys seen. -/
def dedupByKey : List CanonicalRecord → List String → List CanonicalRecord
  | [], _ => []
  | r :: rs, seen =>
    if r.master_key ∈ seen then dedupByKey rs seen
    else r :: dedupByKey rs (r.master_key :: seen)

/-- Embedding of TSODataParser._process_demand_data
(src/data_sources/tso/parser.py 278-419): empty input gives an empty result;
column names are renamed through the alias table; when no column maps to date
or to slot the whole batch is rejected as empty; rows whose date cell does not
parse under the slash format are dropped; each surviving row becomes one
canonical record; duplicate master keys keep the first occurrence. -/
def process_demand_data (df : PandasDF) : List CanonicalRecord :=
  if df.rows.isEmpty then []
  else
    let renH := renamed_headers df.headers
    match indexOfName renH "date", indexOfName renH "slot" with
    | some dateIdx, some slotIdx =>
      let withDate := df.rows.filterMap (fun r =>
        (parseDateSlash (r.getD dateIdx none)).map (fun d => (d, r)))
      if withDate.isEmpty then []
      else
        dedupByKey (withDate.map (fun p =>
          buildRecord renH (cols_to_drop df.headers) p.1 slotIdx p.2)) []
    | _, _ => []

/-! ## EncodingDetector: TSODataParser._detect_encoding (parser.py 159-194)
and the decode phase of TSODataParser.parse_data (parser.py 75-101) -/

/-- The external decoding machinery, abstracted: decode is the strict
bytes.decode of Python for a named codec (none where it raises
UnicodeDecodeError), chardet is chardet.detect returning the guessed encoding
(none models a None guess) and its confidence; the outer none models chardet
being unavailable or raising. -/
structure DecodeEnv where
  decode : String → List Nat → Option String
  chardet : List Nat → Option (Option String × ℚ)

/-- The ordered strict attempts of _detect_encoding. -/
def common_encodings : List String := ["utf-8", "shift-jis", "cp932"]

/-- Embedding of TSODataParser._detect_encoding (parser.py 159-194): the first
of the common encodings that strictly decodes wins; otherwise chardet is
consulted and its guess is used only when non-empty with confidence above 0.7;
in every other case the name utf-8 is returned. No decode output is produced
here, only an encoding name. -/
def detect_encoding (env : DecodeEnv) (content : List Nat) : String :=
  match common_encodings.find? (fun e => (env.decode e content).isSome) with
  | some e => e
  | none =>
    match env.chardet content with
    | some (some e, confidence) =>
      if e ≠ "" ∧ confidence > mkRat 7 10 then e else "utf-8"
    | some (none, _) => "utf-8"
    | none => "utf-8"

/-- The fallback encodings of parse_data (parser.py 85). -/
def fallback_encodings : List String := ["shift-jis", "cp932"]

/-- First successful strict decode along a list of encodings. -/
def firstDecode (env : DecodeEnv) (encs : List String) (content : List Nat) :
    Option String :=
  match encs with
  | [] => none
  | e :: rest =>
    match env.decode e content with
    | some t => some t
    | none => firstDecode env rest content

/-- Embedding of the byte-to-text phase of TSODataParser.parse_data
(parser.py 76-96): strict decode with the detected encoding, then strict
decode with each fallback encoding other than the detected one; when every
attempt fails the method logs and returns an empty DataFrame, i.e. parsing
receives no text at all (none). Every decode in this path is strict: the
source never passes an errors= substitution argument. -/
def acquire_csv_text (env : DecodeEnv) (content : List Nat) : Option String :=
  let encoding := detect_encoding env content
  match env.decode encoding content with
  | some t => some t
  | none =>
    firstDecode env (fallback_encodings.filter (fun e => e ≠ encoding)) content

/-! ## ArchiveExtractor: UnifiedTSODownloader._process_zip_file
(src/data_sources/tso/unified_downloader.py 285-371) -/

/-- Python str.lower as a character list (ASCII lowering). -/
def lowerChars (s : String) : List Char := s.data.map Char.toLower

/-- Boolean prefix test on character lists. -/
def isPrefixOfChars : List Char → List Char → Bool
  | [], _ => true
  | _ :: _, [] => false
  | a :: as, b :: bs => if a = b then isPrefixOfChars as bs else false

/-- The suffix after the first occurrence of pat inside hay, none when pat
does not occur. -/
def stripAfter (pat : List Char) : List Char → Option (List Char)
  | [] => if isPrefixOfChars pat [] then some [] else none
  | c :: t =>
    if isPrefixOfChars pat (c :: t) then some ((c :: t).drop pat.length)
    else stripAfter pat t

/-- Matching of a regex of the shape .*A.*B...*Z (unanchored tail), as the
source builds with re.match: the tokens occur in order as substrings. -/
def seqMatch : List (List Char) → List Char → Bool
  | [], _ => true
  | t :: ts, hay =>
    match stripAfter t hay with
    | some rest => seqMatch ts rest
    | none => false

/-- A filename matches a token pattern, case-insensitively (re.IGNORECASE:
the name is lowered, the tokens are already lowercase). -/
def matchesPat (toks : List String) (name : String) : Bool :=
  seqMatch (toks.map String.data) (lowerChars name)

/-- f.lower().endswith(".csv") of the source (line 308). -/
def endsWithCsv (f : String) : Bool :=
  isPrefixOfChars (".csv".data.reverse) ((lowerChars f).reverse)

/-- Pattern 1 of the chubu branch (line 319): .*{yearMonth}.*\.csv. -/
def pattern_ym (y m : Nat) : List String :=
  [toString y ++ pad2 m, ".csv"]

/-- Pattern 2 of the chubu branch (line 320): .*_{year}.*_{month}.*\.csv. -/
def pattern_sep (y m : Nat) : List String :=
  ["_" ++ toString y, "_" ++ pad2 m, ".csv"]

/-- Pattern 3 of the chubu branch (line 321): .*_{month}月.*\.csv. -/
def pattern_month (m : Nat) : List String :=
  ["_" ++ pad2 m ++ "月", ".csv"]

/-- The prioritized pattern list, most specific first. -/
def zip_patterns (y m : Nat) : List (List String) :=
  [pattern_ym y m, pattern_sep y m, pattern_month m]

/-- The pattern loop of lines 324-330: every pattern with at least one match
extends matched_files with its matches, in priority order. -/
def accumulate_matches (csvs : List String) (ps : List (List String))
    (acc : List String) : List String :=
  match ps with
  | [] => acc
  | p :: pt =>
    let matched := csvs.filter (matchesPat p)
    accumulate_matches csvs pt (if matched.isEmpty then acc else acc ++ matched)

/-- Embedding of the member selection of UnifiedTSODownloader._process_zip_file
(unified_downloader.py 300-350): the member list is filtered to CSV-suffixed
names (an archive without one raises ValueError); on the chubu branch each
pattern in priority order contributes its matches to matched_files, the first
entry of which is selected, with the first CSV member as the logged fallback;
on the generic branch only the year-month pattern is tried with the same
fallback. -/
def process_zip_select (fileList : List String) (isChubu : Bool)
    (year month : Nat) : Except String String :=
  match fileList.filter endsWithCsv with
  | [] => Except.error "ZIPファイル内にCSVファイルがありません"
  | c0 :: r =>
    let csv_files := c0 :: r
    if isChubu then
      match accumulate_matches csv_files (zip_patterns year month) [] with
      | f :: _ => Except.ok f
      | [] => Except.ok c0
    else
      match csv_files.filter (matchesPat (pattern_ym year month)) with
      | f :: _ => Except.ok f
      | [] => Except.ok c0

/-! ## Theorems for claims C1, C2, C3, C6 -/

/-- Helper: the candidate year list of the source equals the list described by
the specification (dedup of the clamped [year, year-1, year+1, currentYear]). -/
theorem chubu_test_years_eq_claimed (y cy : Int) :
    chubu_test_years y cy = claimed_candidate_years y cy := by
  simp only [chubu_test_years, claimed_candidate_years, dedupKeepFirst,
    List.filter_cons, List.filter_nil, decide_eq_true_eq]
  split_ifs <;>
    simp_all [dedupSeen, List.mem_singleton, List.mem_cons] <;> omega

/-- C1: refuted on the code. Persisting a one-record batch with master_key
20240401_1 into an empty table via save_dataframe reports inserted = 0, not
N = 1, and stores nothing: the dedented return at line 161 of
src/db/duckdb_connection.py exits before the WHERE NOT EXISTS INSERT, while
that unreachable insert section would have stored the row and reported 1. -/
theorem c1_save_dataframe_never_inserts :
    save_dataframe [] [⟨some "20240401_1", 100⟩] "tso_demand" "append" true =
      Except.ok ([], 0) ∧
    save_dataframe_unreachable_insert [] [⟨some "20240401_1", 100⟩] true =
      ([⟨some "20240401_1", 100⟩], 1) ∧
    (0 : Int) ≠ 1 := by
  refine ⟨rfl, rfl, by decide⟩

/-- C2: for every target table state, every input frame (empty or not), every
table name and either duplicate-check flag, save_dataframe returns 0 and leaves
the table unchanged, because the return at line 161 is dedented out of the
empty-frame branch and the insert logic after it is never reached. -/
theorem c2_save_dataframe_returns_zero_unconditionally
    (table df : List DBRow) (tableName : String) (checkDup : Bool) :
    save_dataframe table df tableName "append" checkDup =
      Except.ok (table, 0) := by
  rfl

/-- C3: evaluation of time_to_slot. The guard slot == 0 and hour == 24 of the
source can never hold (hour 24 with minute 0 yields slot 49), so the special
input 24:00 returns 49, contradicting the claim (and the comment of the source)
that it returns 48. On hours 0..23 the claimed formula does hold: minute 00
gives hour*2+1 and minute 30 gives hour*2+2. -/
theorem c3_time_to_slot_24_00_returns_49 :
    time_to_slot (some "24:00") = 49 ∧
    (∀ h : Fin 24, time_to_slot (some (fmtTime h 0)) = 2 * (h : Int) + 1 ∧
      time_to_slot (some (fmtTime h 30)) = 2 * (h : Int) + 2) := by
  decide

/-- C6: the year-search fallback of TSODataDownloader.fetch_data for chubu is
exactly the deduplicated, current-year-clamped sequence
period.year, period.year-1, period.year+1, current_year described by the
specification, for every requested year and current year; in particular for
period year 2024 and any current year of at least 2025 the candidates are
[2024, 2023, 2025, currentYear] deduplicated. Determinism is by construction:
the candidate list is a pure function of (year, currentYear). -/
theorem c6_year_search_candidates_match_claim :
    (∀ y cy : Int, chubu_test_years y cy = claimed_candidate_years y cy) ∧
    (∀ cy : Int, 2025 ≤ cy →
      chubu_test_years 2024 cy = dedupKeepFirst [2024, 2023, 2025, cy]) := by
  refine ⟨chubu_test_years_eq_claimed, ?_⟩
  intro cy hcy
  rw [chubu_test_years_eq_claimed 2024 cy]
  simp only [claimed_candidate_years, List.filter_cons, List.filter_nil,
    decide_eq_true_eq]
  split_ifs <;> first | rfl | omega

/-- Witness for C6: instantiation at period year 2024 with current year 2026,
where every hypothesis is discharged concretely. -/
theorem c6_year_search_candidates_match_claim_witness :
    chubu_test_years 2024 2026 = dedupKeepFirst [2024, 2023, 2025, 2026] :=
  c6_year_search_candidates_match_claim.2 2026 (by decide)

/-! ## Theorems for claims C4, C5, C7, C8 -/

/-- Helper: a record surviving the duplicate-key drop was in the input list. -/
theorem mem_of_mem_dedupByKey :
    ∀ (l : List CanonicalRecord) (seen : List String) (r : CanonicalRecord),
      r ∈ dedupByKey l seen → r ∈ l := by
  intro l
  induction l with
  | nil => intro seen r h; exact absurd h (List.not_mem_nil r)
  | cons a t ih =>
    intro seen r h
    simp only [dedupByKey] at h
    split at h
    · exact List.mem_cons_of_mem a (ih seen r h)
    · rcases List.mem_cons.mp h with h1 | h2
      · exact h1 ▸ List.mem_cons_self a t
      · exact List.mem_cons_of_mem a (ih _ r h2)

/-- Helper: a name absent from a list is not found by indexOfName. -/
theorem indexOfName_eq_none_of_not_mem (l : List String) (a : String)
    (ha : a ∉ l) : indexOfName l a = none := by
  induction l with
  | nil => rfl
  | cons x t ih =>
    have hx : ¬ x = a := fun e => ha (e ▸ List.mem_cons_self x t)
    have ht : a ∉ t := fun m => ha (List.mem_cons_of_mem x m)
    simp [indexOfName, hx, ih ht]

/-- Helper: looking up a key in a key-indexed map of itself. -/
theorem lookup_map_self (l : List String) (f : String → ℚ) (a : String)
    (ha : a ∈ l) :
    (l.map (fun s => (s, f s))).lookup a = some (f a) := by
  induction l with
  | nil => exact absurd ha (List.not_mem_nil a)
  | cons x t ih =>
    by_cases hx : a = x
    · subst hx; simp [List.lookup]
    · have ht : a ∈ t := by
        rcases List.mem_cons.mp ha with h1 | h2
        · exact absurd h1 hx
        · exact h2
      have hbeq : (a == x) = false := beq_eq_false_iff_ne.mpr hx
      simp [List.lookup, hbeq, ih ht]

/-- Helper: every record produced by process_demand_data is a buildRecord over
the renamed headers and drop set of the input frame. -/
theorem process_demand_data_mem (df : PandasDF) (rec : CanonicalRecord)
    (h : rec ∈ process_demand_data df) :
    ∃ dateStr slotIdx row,
      rec = buildRecord (renamed_headers df.headers) (cols_to_drop df.headers)
        dateStr slotIdx row := by
  simp only [process_demand_data] at h
  split at h
  · exact absurd h (List.not_mem_nil rec)
  · split at h
    · split at h
      · exact absurd h (List.not_mem_nil rec)
      · have h2 := mem_of_mem_dedupByKey _ _ _ h
        obtain ⟨p, hp, heq⟩ := List.mem_map.mp h2
        exact ⟨p.1, _, p.2, heq.symm⟩
    · exact absurd h (List.not_mem_nil rec)

/-- Shared concrete frame: standard DATE and TIME headers, one row whose TIME
cell is not a time. -/
def sample_df_badtime : PandasDF :=
  ⟨["DATE", "TIME"], [[some "2024/04/01", some "bad"]]⟩

/-- Shared concrete frame: three rows, the middle one carrying a dash-shaped
date. -/
def sample_df_mixed : PandasDF :=
  ⟨["DATE", "TIME"],
   [[some "2024/04/01", some "10:00"], [some "2024-04-02", some "11:00"],
    [some "2024/04/02", some "10:30"]]⟩

/-- The single record emitted for sample_df_badtime. -/
def sample_rec_badtime : CanonicalRecord :=
  ⟨"20240401_0", "20240401", 0, metric_names.map (fun s => (s, 0))⟩

/-- C4: refuted on the code. The demand normalization emits a record with
slot = 0 for a row whose TIME cell does not parse (the row is kept, not
dropped), so not every emitted record has slot in [1, 48]. -/
theorem c4_counterexample_slot_zero_emitted :
    (process_demand_data sample_df_badtime).map CanonicalRecord.slot = [0] ∧
    ¬ (1 ≤ (0 : Int) ∧ (0 : Int) ≤ 48) := by
  decide

/-- C4 as amended: every emitted slot is time_to_slot of some cell; the value
lies in [1, 48] whenever the TIME cell parses with hour in [0, 23], while a
missing or unparsable TIME gives slot 0 (row kept) and 24:00 gives slot 49. -/
theorem c4_amended_slot_characterization :
    (∀ df : PandasDF, ∀ rec ∈ process_demand_data df,
      ∃ c : Cell, rec.slot = time_to_slot c) ∧
    (∀ (s : String) (h m : Int), parseHM s = some (h, m) → 0 ≤ h → h ≤ 23 →
      1 ≤ time_to_slot (some s) ∧ time_to_slot (some s) ≤ 48) ∧
    time_to_slot (some "24:00") = 49 ∧
    time_to_slot (some "bad") = 0 ∧
    time_to_slot none = 0 := by
  refine ⟨?_, ?_, by decide, by decide, by decide⟩
  · intro df rec hrec
    obtain ⟨d, si, row, hEq⟩ := process_demand_data_mem df rec hrec
    by_cases hdrop : "slot" ∈ cols_to_drop df.headers
    · exact ⟨none, by simp [hEq, buildRecord, hdrop, time_to_slot]⟩
    · exact ⟨row.getD si none, by simp [hEq, buildRecord, hdrop]⟩
  · intro s h m hp h0 h23
    simp only [time_to_slot, hp]
    rcases eq_or_ne m 0 with rfl | hm
    · rw [if_pos rfl, if_neg (by omega)]
      constructor <;> omega
    · rw [if_neg hm, if_neg (by omega)]
      constructor <;> omega

/-- Witness for C4: the amended theorem applied to the concrete bad-time frame
and to the concrete time 05:30, all hypotheses discharged by evaluation. -/
theorem c4_amended_slot_characterization_witness :
    (∃ c : Cell, sample_rec_badtime.slot = time_to_slot c) ∧
    (1 ≤ time_to_slot (some "05:30") ∧ time_to_slot (some "05:30") ≤ 48) :=
  ⟨c4_amended_slot_characterization.1 sample_df_badtime sample_rec_badtime
      (by decide),
   c4_amended_slot_characterization.2.1 "05:30" 5 30 (by decide) (by decide)
      (by decide)⟩

/-- C5: refuted on the code. A row whose date cell has the dash shape
YYYY-MM-DD is dropped (the strict slash format of the source rejects it), so a
dash-shaped date is never normalized into an emitted record. -/
theorem c5_counterexample_dash_date_dropped :
    process_demand_data
      ⟨["DATE", "TIME"], [[some "2024-04-01", some "10:00"]]⟩ = [] := by
  decide

/-- C5 as amended: only the slash shape YYYY/MM/DD is normalized to the
canonical YYYYMMDD string; a cell of any other shape, the dash shape included,
fails to parse and its row alone is dropped while the remaining rows of the
batch are still processed. -/
theorem c5_amended_date_normalization :
    parseDateSlash (some "2024/04/01") = some "20240401" ∧
    parseDateSlash (some "2024-04-01") = none ∧
    parseDateSlash (some "junk") = none ∧
    parseDateSlash none = none ∧
    (process_demand_data sample_df_mixed).map CanonicalRecord.date =
      ["20240401", "20240402"] ∧
    (process_demand_data sample_df_mixed).map CanonicalRecord.master_key =
      ["20240401_21", "20240402_22"] := by
  decide

/-- C7: metric totality of the schema mapping. A canonical metric whose column
is absent from the renamed headers is 0 in every output record; every metric
of every output record is the numeric coercion of some cell (so never null and
never an error); the coercion normalizes full-width digits and strips commas,
and coercion failure yields 0. -/
theorem c7_metric_totality :
    (∀ df : PandasDF, ∀ rec ∈ process_demand_data df, ∀ std ∈ metric_names,
      std ∉ renamed_headers df.headers → rec.metrics.lookup std = some 0) ∧
    (∀ df : PandasDF, ∀ rec ∈ process_demand_data df, ∀ std ∈ metric_names,
      ∃ c : Cell, rec.metrics.lookup std = some (coerceNumeric c)) ∧
    coerceNumeric (some "１,２３４") = 1234 ∧
    coerceNumeric (some "12a") = 0 ∧
    coerceNumeric none = 0 := by
  refine ⟨?_, ?_, by decide, by decide, by decide⟩
  · intro df rec hrec std hstd habs
    obtain ⟨d, si, row, hEq⟩ := process_demand_data_mem df rec hrec
    have hlk := lookup_map_self metric_names
      (fun std => if std ∈ cols_to_drop df.headers then 0
        else metricValue (renamed_headers df.headers) row std) std hstd
    rw [hEq]
    simp only [buildRecord]
    rw [hlk]
    beta_reduce
    by_cases hdrop : std ∈ cols_to_drop df.headers
    · rw [if_pos hdrop]
    · rw [if_neg hdrop]
      simp [metricValue, indexOfName_eq_none_of_not_mem _ _ habs]
  · intro df rec hrec std hstd
    obtain ⟨d, si, row, hEq⟩ := process_demand_data_mem df rec hrec
    have hlk := lookup_map_self metric_names
      (fun std => if std ∈ cols_to_drop df.headers then 0
        else metricValue (renamed_headers df.headers) row std) std hstd
    rw [hEq]
    simp only [buildRecord]
    rw [hlk]
    beta_reduce
    by_cases hdrop : std ∈ cols_to_drop df.headers
    · refine ⟨none, ?_⟩
      rw [if_pos hdrop]
      decide
    · rw [if_neg hdrop]
      unfold metricValue
      cases hidx : indexOfName (renamed_headers df.headers) std with
      | none =>
        refine ⟨none, ?_⟩
        simp only [hidx]
        decide
      | some i =>
        refine ⟨row.getD i none, ?_⟩
        simp only [hidx]

/-- Witness for C7: both quantified clauses applied to the concrete bad-time
frame, for the unmapped metric nuclear, all hypotheses discharged by
evaluation. -/
theorem c7_metric_totality_witness :
    sample_rec_badtime.metrics.lookup "nuclear" = some 0 ∧
    (∃ c : Cell,
      sample_rec_badtime.metrics.lookup "nuclear" = some (coerceNumeric c)) :=
  ⟨c7_metric_totality.1 sample_df_badtime sample_rec_badtime (by decide)
      "nuclear" (by decide) (by decide),
   c7_metric_totality.2.1 sample_df_badtime sample_rec_badtime (by decide)
      "nuclear" (by decide)⟩

/-- C8: when no input column maps to date and none maps to slot, the whole
batch is rejected and no canonical records are produced (the source logs the
failure and returns an empty frame, which the caller treats as the period
failing; the specification names this outcome SchemaMappingError). -/
theorem c8_unmappable_date_slot_rejects_batch (df : PandasDF)
    (hd : "date" ∉ renamed_headers df.headers)
    (hs : "slot" ∉ renamed_headers df.headers) :
    process_demand_data df = [] := by
  by_cases hrows : df.rows.isEmpty
  · simp [process_demand_data, hrows]
  · simp [process_demand_data, hrows,
      indexOfName_eq_none_of_not_mem _ _ hd]

/-- Witness for C8: a concrete frame with unmappable headers is rejected. -/
theorem c8_unmappable_date_slot_rejects_batch_witness :
    process_demand_data ⟨["foo", "bar"], [[some "x", some "y"]]⟩ = [] :=
  c8_unmappable_date_slot_rejects_batch
    ⟨["foo", "bar"], [[some "x", some "y"]]⟩ (by decide) (by decide)

/-! ## Theorems for claims C9, C10 -/

/-- A concrete decoding environment: every strict decode fails and chardet
guesses euc-jp with confidence 0.5. This is consistent with the real codecs on
the byte 0xFF, which is invalid in utf-8, shift-jis and cp932. -/
def c9_env : DecodeEnv :=
  ⟨fun _ _ => none, fun _ => some (some "euc-jp", mkRat 1 2)⟩

/-- A second concrete environment for the witness: all strict decodes fail and
the chardet confidence sits exactly at the 0.7 threshold (not above it). -/
def c9_env_threshold : DecodeEnv :=
  ⟨fun _ _ => none, fun _ => some (some "euc-jp", mkRat 7 10)⟩

/-- C9: refuted on the code. With every strict decode failing and a
low-confidence guess, the detector falls back to the name utf-8, but
parse_data then decodes strictly and fails, so parsing receives no text at
all; no lossy substitution decode exists in the source. -/
theorem c9_counterexample_parsing_receives_no_text :
    detect_encoding c9_env [255] = "utf-8" ∧
    acquire_csv_text c9_env [255] = none := by
  decide

/-- C9 as amended: whenever the strict decodes with utf-8, shift-jis and cp932
all fail and the heuristic guess is absent, empty, or has confidence at most
0.7, the detector returns the primary name utf-8 and the decode phase of
parse_data yields no text (the batch becomes an empty frame); there is no
lossy-substitution decode. -/
theorem c9_amended_strict_failure_yields_no_text
    (env : DecodeEnv) (content : List Nat)
    (hu : env.decode "utf-8" content = none)
    (hs : env.decode "shift-jis" content = none)
    (hc : env.decode "cp932" content = none)
    (hguess : ∀ e conf, env.chardet content = some (e, conf) →
      conf ≤ mkRat 7 10 ∨ e = none ∨ e = some "") :
    detect_encoding env content = "utf-8" ∧
    acquire_csv_text env content = none := by
  have hfind : common_encodings.find?
      (fun e => (env.decode e content).isSome) = none := by
    rw [List.find?_eq_none]
    intro x hx
    fin_cases hx <;> simp [hu, hs, hc]
  have hdet : detect_encoding env content = "utf-8" := by
    unfold detect_encoding
    rw [hfind]
    cases hch : env.chardet content with
    | none => rfl
    | some p =>
      obtain ⟨e, conf⟩ := p
      cases e with
      | none => rfl
      | some s =>
        show (if s ≠ "" ∧ conf > mkRat 7 10 then s else "utf-8") = "utf-8"
        rcases hguess (some s) conf hch with hle | hn | he
        · rw [if_neg]
          rintro ⟨-, hgt⟩
          exact absurd hgt (not_lt.mpr hle)
        · exact absurd hn (by simp)
        · rw [if_neg]
          rintro ⟨hne, -⟩
          exact hne (Option.some.inj he)
  refine ⟨hdet, ?_⟩
  simp only [acquire_csv_text, hdet, hu]
  have hfil : fallback_encodings.filter (fun e => e ≠ "utf-8") =
      ["shift-jis", "cp932"] := by decide
  rw [hfil]
  simp [firstDecode, hs, hc]

/-- Witness for C9: the amended theorem applied to the concrete
threshold-confidence environment on the byte 0x81, every hypothesis discharged
concretely. -/
theorem c9_amended_strict_failure_yields_no_text_witness :
    detect_encoding c9_env_threshold [129] = "utf-8" ∧
    acquire_csv_text c9_env_threshold [129] = none :=
  c9_amended_strict_failure_yields_no_text c9_env_threshold [129] rfl rfl rfl
    (by
      intro e conf h
      have h2 := Option.some.inj h
      rw [Prod.mk.injEq] at h2
      obtain ⟨-, h4⟩ := h2
      left
      rw [← h4])

/-- C10: refuted on the code as stated. When no pattern matches, the fallback
selects the first CSV-suffixed member, not the first archive member: for the
archive [readme.txt, zzz.csv] with period 2024-04 the selected member is
zzz.csv although the first archive member is readme.txt. -/
theorem c10_counterexample_fallback_skips_non_csv_member :
    process_zip_select ["readme.txt", "zzz.csv"] true 2024 4 =
      Except.ok "zzz.csv" ∧
    ["readme.txt", "zzz.csv"].head? = some "readme.txt" ∧
    ("zzz.csv" : String) ≠ "readme.txt" := by
  refine ⟨rfl, rfl, by decide⟩

/-- Helper: the pattern loop equals the concatenation of the per-pattern
match lists in priority order (appending an empty match list is the identity,
so the isEmpty guard of the source does not change the result). -/
theorem accumulate_matches_eq (csvs : List String) :
    ∀ (ps : List (List String)) (acc : List String),
      accumulate_matches csvs ps acc =
        acc ++ (ps.map (fun p => csvs.filter (matchesPat p))).flatten := by
  intro ps
  induction ps with
  | nil => intro acc; simp [accumulate_matches]
  | cons p pt ih =>
    intro acc
    simp only [accumulate_matches]
    rw [ih]
    simp only [List.map_cons, List.flatten_cons]
    by_cases he : ((csvs.filter (matchesPat p)).isEmpty : Bool) = true
    · rw [if_pos he]
      rw [List.isEmpty_iff] at he
      simp [he]
    · rw [if_neg he]
      simp [List.append_assoc]

/-- C10 as amended: among the CSV-suffixed members, the first member matching
the highest-priority pattern with any match is selected (year-month token,
then separated year and month tokens, then localized month name); when no
pattern matches, the first CSV-suffixed member is the fallback; and for the
archive [eria_jukyu_202404.csv, readme.txt] with period 2024-04 the member
eria_jukyu_202404.csv is selected and readme.txt is ignored. -/
theorem c10_amended_member_selection :
    (∀ (files : List String) (y m : Nat) (f : String) (r : List String),
      (files.filter endsWithCsv).filter (matchesPat (pattern_ym y m)) =
        f :: r →
      process_zip_select files true y m = Except.ok f) ∧
    (∀ (files : List String) (y m : Nat) (f : String) (r : List String),
      (files.filter endsWithCsv).filter (matchesPat (pattern_ym y m)) = [] →
      (files.filter endsWithCsv).filter (matchesPat (pattern_sep y m)) =
        f :: r →
      process_zip_select files true y m = Except.ok f) ∧
    (∀ (files : List String) (y m : Nat) (f : String) (r : List String),
      (files.filter endsWithCsv).filter (matchesPat (pattern_ym y m)) = [] →
      (files.filter endsWithCsv).filter (matchesPat (pattern_sep y m)) = [] →
      (files.filter endsWithCsv).filter (matchesPat (pattern_month m)) =
        f :: r →
      process_zip_select files true y m = Except.ok f) ∧
    (∀ (files : List String) (y m : Nat) (c0 : String) (r : List String),
      (files.filter endsWithCsv).filter (matchesPat (pattern_ym y m)) = [] →
      (files.filter endsWithCsv).filter (matchesPat (pattern_sep y m)) = [] →
      (files.filter endsWithCsv).filter (matchesPat (pattern_month m)) = [] →
      files.filter endsWithCsv = c0 :: r →
      process_zip_select files true y m = Except.ok c0) ∧
    process_zip_select ["eria_jukyu_202404.csv", "readme.txt"] true 2024 4 =
      Except.ok "eria_jukyu_202404.csv" := by
  refine ⟨?_, ?_, ?_, ?_, rfl⟩
  · intro files y m f r h1
    cases hcsv : files.filter endsWithCsv with
    | nil => rw [hcsv, List.filter_nil] at h1; exact absurd h1 (by simp)
    | cons c0 rr =>
      rw [hcsv] at h1
      unfold process_zip_select
      rw [hcsv]
      show (match accumulate_matches (c0 :: rr) (zip_patterns y m) [] with
        | g :: _ => Except.ok g
        | [] => Except.ok c0) = Except.ok f
      rw [accumulate_matches_eq]
      simp only [zip_patterns, List.map_cons, List.map_nil, List.flatten_cons,
        List.flatten_nil, List.nil_append, List.append_nil, h1, List.cons_append]
  · intro files y m f r h1 h2
    cases hcsv : files.filter endsWithCsv with
    | nil => rw [hcsv, List.filter_nil] at h2; exact absurd h2 (by simp)
    | cons c0 rr =>
      rw [hcsv] at h1 h2
      unfold process_zip_select
      rw [hcsv]
      show (match accumulate_matches (c0 :: rr) (zip_patterns y m) [] with
        | g :: _ => Except.ok g
        | [] => Except.ok c0) = Except.ok f
      rw [accumulate_matches_eq]
      simp only [zip_patterns, List.map_cons, List.map_nil, List.flatten_cons,
        List.flatten_nil, List.nil_append, List.append_nil, h1, h2,
        List.cons_append]
  · intro files y m f r h1 h2 h3
    cases hcsv : files.filter endsWithCsv with
    | nil => rw [hcsv, List.filter_nil] at h3; exact absurd h3 (by simp)
    | cons c0 rr =>
      rw [hcsv] at h1 h2 h3
      unfold process_zip_select
      rw [hcsv]
      show (match accumulate_matches (c0 :: rr) (zip_patterns y m) [] with
        | g :: _ => Except.ok g
        | [] => Except.ok c0) = Except.ok f
      rw [accumulate_matches_eq]
      simp only [zip_patterns, List.map_cons, List.map_nil, List.flatten_cons,
        List.flatten_nil, List.nil_append, List.append_nil, h1, h2, h3,
        List.cons_append]
  · intro files y m c0 r h1 h2 h3 hcsv
    rw [hcsv] at h1 h2 h3
    unfold process_zip_select
    rw [hcsv]
    show (match accumulate_matches (c0 :: r) (zip_patterns y m) [] with
      | g :: _ => Except.ok g
      | [] => Except.ok c0) = Except.ok c0
    rw [accumulate_matches_eq]
    simp only [zip_patterns, List.map_cons, List.map_nil, List.flatten_cons,
      List.flatten_nil, List.nil_append, List.append_nil, h1, h2, h3]

/-- Witness for C10: the first clause of the amended theorem applied to the
eria_jukyu archive, the filter hypothesis discharged by evaluation. -/
theorem c10_amended_member_selection_witness :
    process_zip_select ["eria_jukyu_202404.csv", "readme.txt"] true 2024 4 =
      Except.ok "eria_jukyu_202404.csv" :=
  c10_amended_member_selection.1 ["eria_jukyu_202404.csv", "readme.txt"]
    2024 4 "eria_jukyu_202404.csv" [] (by decide)

end PowerMarketData
